import Mathlib

/-!
Verification of the transcription orchestration workflow of the STT telegram
bot (`lambda_function.py`).  The two functions under study are
`poll_until_complete` and `transcribe`.  Network behaviour is modelled as an
abstract `Transport`: for every HTTP call site the transport prescribes
either a raised exception or a response consisting of an HTTP status code
and a body.  A body is described by how far it survives the processing the
Python code applies to it: UTF-8 decoding, then JSON parsing, then field
lookup via `dict.get` (the fields the code ever reads are `id`, `status`,
`error_message` and `text`; values are modelled as optional strings, a
missing/`None`/non-matching value being `none`).  `transcribe` is embedded
as a pure function from the transport behaviour to the returned result
string together with the trace of HTTP calls it issues.
-/

namespace STT

/-- Constant `MAX_POLL_RETRIES = 24` from `lambda_function.py`. -/
def MAX_POLL_RETRIES : Nat := 24

/-- Constant `POLL_RETRY_DELAY_S = 0.5` from `lambda_function.py`. -/
def POLL_RETRY_DELAY_S : ℚ := 1 / 2

/-- Constant `MAX_ERROR_LEN = 100` from `lambda_function.py`. -/
def MAX_ERROR_LEN : Nat := 100

/-- Python string slicing `s[:n]` (by characters). -/
def pyTake (n : Nat) (s : String) : String := String.mk (s.data.take n)

/-- The JSON-object fields the workflow ever reads via `.get`.  A field that
is absent, `null`, or not a string is modelled as `none`. -/
structure Fields where
  id : Option String := none
  status : Option String := none
  error_message : Option String := none
  text : Option String := none
deriving DecidableEq

/-- What becomes of a response body under the processing the code applies:
`badUtf8`: `response.data.decode("utf-8")` raises (with message `msg`);
`badJson`: decoding yields `text` but `json.loads` (or a subsequent
attribute access on a non-dict value) raises with message `msg`;
`obj`: decoding yields `text` and parsing yields a dict with `fields`. -/
inductive BodyOutcome where
  | badUtf8 (msg : String)
  | badJson (text : String) (msg : String)
  | obj (text : String) (fields : Fields)
deriving DecidableEq

/-- Outcome of one `http.request` call: either the call raises an exception
(`maxRetry` records whether it is a `urllib3 MaxRetryError`), or it returns
a response with an HTTP status code and a body. -/
inductive HttpOutcome where
  | exn (maxRetry : Bool) (msg : String)
  | ok (status : Nat) (body : BodyOutcome)
deriving DecidableEq

/-- The transport behaviour of one whole run: an outcome for the upload
call, the start-transcription call, each poll attempt (by attempt index),
the transcript fetch, and whether each of the two DELETE calls raises. -/
structure Transport where
  upload : HttpOutcome
  start : HttpOutcome
  polls : Nat → HttpOutcome
  fetch : HttpOutcome
  deleteJobRaises : Bool := false
  deleteFileRaises : Bool := false

/-- Python truthiness of an optional string (`None` and `""` are falsy). -/
def truthy : Option String → Bool
  | none => false
  | some s => s ≠ ""

/-- One iteration of the loop body of `poll_until_complete`: `some r` means
the function returns `r` from inside the loop; `none` means the iteration
falls through to `time.sleep` and the loop continues. -/
def pollStep : HttpOutcome → Option String
  | .exn maxRetry _ =>
      some (if maxRetry then ("Network error while polling transcription status")
            else ("Failed to get transcription status"))
  | .ok status body =>
      if status ≥ 400 then some ("Error polling transcription status")
      else
        match body with
        | .badUtf8 _ => some ("Failed to get transcription status")
        | .badJson _ _ => some ("Failed to get transcription status")
        | .obj _ fields =>
            if fields.status = some ("completed") then some ("completed")
            else if fields.status = some ("error") then
              some (fields.error_message.getD ("Unknown transcription error"))
            else none

/-- Result of a run of `poll_until_complete`: the returned string, the
number of status requests issued, and the list of sleep durations. -/
structure PollRun where
  result : String
  requests : Nat
  sleeps : List ℚ
deriving DecidableEq

/-- The polling loop with explicit fuel: attempt `i` uses `polls i`.  A
non-terminal attempt sleeps `POLL_RETRY_DELAY_S` and continues; exhausted
fuel returns `"Transcription timed out"`. -/
def pollAux (polls : Nat → HttpOutcome) : Nat → Nat → PollRun
  | _, 0 => ⟨"Transcription timed out", 0, []⟩
  | i, fuel + 1 =>
      match pollStep (polls i) with
      | some r => ⟨r, 1, []⟩
      | none =>
          let rest := pollAux polls (i + 1) fuel
          ⟨rest.result, rest.requests + 1, POLL_RETRY_DELAY_S :: rest.sleeps⟩

/-- `poll_until_complete` from `lambda_function.py` (the transcription id
only appears in the request URL; the behaviour is a function of the
transport's per-attempt outcomes). -/
def poll_until_complete (_transcription_id : String)
    (polls : Nat → HttpOutcome) : PollRun :=
  pollAux polls 0 MAX_POLL_RETRIES

/-- HTTP calls issued by `transcribe`, in order. -/
inductive Call where
  | uploadReq
  | startReq
  | pollReq
  | fetchReq
  | deleteJobReq (id : String)
  | deleteFileReq (id : String)
deriving DecidableEq

/-- Step 1 of `transcribe` (file upload): either the failure string the
function returns, or the obtained `file_id`. -/
def uploadStep : HttpOutcome → Except String String
  | .exn _ msg => .error ("File upload failed: " ++ msg)
  | .ok status body =>
      if status ≥ 400 then
        match body with
        | .badUtf8 msg => .error ("File upload failed: " ++ msg)
        | .badJson t _ =>
            .error ("File upload failed with status " ++ toString status ++ ": "
              ++ pyTake MAX_ERROR_LEN t)
        | .obj t _ =>
            .error ("File upload failed with status " ++ toString status ++ ": "
              ++ pyTake MAX_ERROR_LEN t)
      else
        match body with
        | .badUtf8 msg => .error ("File upload failed: " ++ msg)
        | .badJson _ msg => .error ("File upload failed: " ++ msg)
        | .obj _ fields =>
            if truthy fields.id then .ok (fields.id.getD (""))
            else .error ("Failed to get file_id from upload response")

/-- Step 2 of `transcribe` (start transcription): either the failure string
the function returns, or the obtained `transcription_id`. -/
def startStep : HttpOutcome → Except String String
  | .exn _ msg => .error ("Transcription start failed: " ++ msg)
  | .ok status body =>
      if status ≥ 400 then
        match body with
        | .badUtf8 msg => .error ("Transcription start failed: " ++ msg)
        | .badJson t _ =>
            .error ("Transcription start failed with status " ++ toString status
              ++ ": " ++ pyTake MAX_ERROR_LEN t)
        | .obj t _ =>
            .error ("Transcription start failed with status " ++ toString status
              ++ ": " ++ pyTake MAX_ERROR_LEN t)
      else
        match body with
        | .badUtf8 msg => .error ("Transcription start failed: " ++ msg)
        | .badJson _ msg => .error ("Transcription start failed: " ++ msg)
        | .obj _ fields =>
            if truthy fields.id then .ok (fields.id.getD (""))
            else .error ("Failed to get transcription_id from response")

/-- Step 4 of `transcribe` (fetch transcript text): the string the function
returns (success or failure). -/
def fetchStep : HttpOutcome → String
  | .exn _ msg => "Transcript retrieval failed: " ++ msg
  | .ok status body =>
      if status ≥ 400 then
        match body with
        | .badUtf8 msg => "Transcript retrieval failed: " ++ msg
        | .badJson t _ =>
            "Transcript retrieval failed with status " ++ toString status ++ ": "
              ++ pyTake MAX_ERROR_LEN t
        | .obj t _ =>
            "Transcript retrieval failed with status " ++ toString status ++ ": "
              ++ pyTake MAX_ERROR_LEN t
      else
        match body with
        | .badUtf8 msg => "Transcript retrieval failed: " ++ msg
        | .badJson _ msg => "Transcript retrieval failed: " ++ msg
        | .obj _ fields =>
            let transcript_text := fields.text.getD ("")
            if transcript_text = "" then
              ("Transcription completed but no text was found")
            else ("Transcription: ") ++ transcript_text

/-- State of `transcribe` when control reaches the `finally` block: the
result string of the `try` body, the values of the `file_id` and
`transcription_id` locals, and the HTTP calls issued so far. -/
structure BodyRun where
  result : String
  file_id : Option String
  transcription_id : Option String
  calls : List Call

/-- The `try` body of `transcribe` (steps 1-4), before the `finally`
cleanup block. -/
def transcribeBody (tr : Transport) : BodyRun :=
  match uploadStep tr.upload with
  | .error msg => ⟨msg, none, none, [Call.uploadReq]⟩
  | .ok fid =>
      match startStep tr.start with
      | .error msg => ⟨msg, some fid, none, [Call.uploadReq, Call.startReq]⟩
      | .ok tid =>
          let run := poll_until_complete tid tr.polls
          let pcalls := List.replicate run.requests Call.pollReq
          if run.result ≠ "completed" then
            ⟨"Transcription failed: " ++ run.result, some fid, some tid,
              [Call.uploadReq, Call.startReq] ++ pcalls⟩
          else
            ⟨fetchStep tr.fetch, some fid, some tid,
              [Call.uploadReq, Call.startReq] ++ pcalls ++ [Call.fetchReq]⟩

/-- The `finally` block of `transcribe`: delete the transcription if a
truthy `transcription_id` exists, then delete the file if a truthy
`file_id` exists.  Each delete is wrapped in its own `try/except`, so an
exception in one neither aborts the other nor changes the result. -/
def cleanupCalls (transcription_id file_id : Option String) : List Call :=
  (if truthy transcription_id then [Call.deleteJobReq (transcription_id.getD (""))]
   else [])
    ++ (if truthy file_id then [Call.deleteFileReq (file_id.getD (""))] else [])

/-- `transcribe(file_content, file_type)` from `lambda_function.py`: given
the transport behaviour, the returned string and the full trace of HTTP
calls.  The payload and content type are forwarded to the remote service
inside the upload request and do not otherwise influence control flow. -/
def transcribe (_file_content : List Nat) (_file_type : String)
    (tr : Transport) : String × List Call :=
  let b := transcribeBody tr
  (b.result, b.calls ++ cleanupCalls b.transcription_id b.file_id)

/-- Predicate for delete-file calls in a trace. -/
def isDeleteFile : Call → Bool
  | .deleteFileReq _ => true
  | _ => false

/-- Predicate for delete-job calls in a trace. -/
def isDeleteJob : Call → Bool
  | .deleteJobReq _ => true
  | _ => false

/-- Number of delete-file calls in a trace. -/
def countDeleteFile (l : List Call) : Nat := l.countP isDeleteFile

/-- Number of delete-job calls in a trace. -/
def countDeleteJob (l : List Call) : Nat := l.countP isDeleteJob

/-- Number of transcript-fetch calls in a trace. -/
def countFetch (l : List Call) : Nat :=
  l.countP fun c => match c with | Call.fetchReq => true | _ => false

/-- Boolean success of a step result. -/
def exceptOk : Except String String → Bool
  | .ok _ => true
  | .error _ => false

/-- `strHasPre p s` holds when the character sequence of `p` is an initial
segment of that of `s` (Python's `s.startswith(p)`). -/
def strHasPre (p s : String) : Bool :=
  decide (List.take p.data.length s.data = p.data)

/-- The UTF-8 decoded text of a response body, when decoding succeeds. -/
def decodedText : BodyOutcome → Option String
  | .badUtf8 _ => none
  | .badJson t _ => some t
  | .obj t _ => some t

/-- A poll response that reports HTTP success and JSON status `pending`. -/
def respondsPending : HttpOutcome → Bool
  | .ok status (.obj _ fields) =>
      decide (status < 400) && (fields.status == some ("pending"))
  | _ => false

/-- A fetch response on which the success branch of step 4 fires: HTTP
success, a JSON object, and a non-empty `text` field. -/
def fetchGivesText : HttpOutcome → Bool
  | .ok status (.obj _ fields) =>
      decide (status < 400) && decide (fields.text.getD ("") ≠ "")
  | _ => false

/-- The run succeeded end to end with a non-empty transcript: upload and
start obtained ids, polling reported completion, and the fetch yielded a
non-empty `text`. -/
def runSucceeded (tr : Transport) : Bool :=
  exceptOk (uploadStep tr.upload) && exceptOk (startStep tr.start)
    && ((pollAux tr.polls 0 MAX_POLL_RETRIES).result == "completed")
    && fetchGivesText tr.fetch

/-- Every string `transcribe` can return is one of these user-facing
workflow strings. -/
def isWorkflowResult (s : String) : Bool :=
  strHasPre ("File upload failed") s
    || s == "Failed to get file_id from upload response"
    || strHasPre ("Transcription start failed") s
    || s == "Failed to get transcription_id from response"
    || strHasPre ("Transcription failed: ") s
    || strHasPre ("Transcript retrieval failed") s
    || s == "Transcription completed but no text was found"
    || strHasPre ("Transcription: ") s

/-- A 200 response whose JSON object carries an `id`. -/
def okId (i : String) : HttpOutcome := .ok 200 (.obj ("id-body") { id := some i })

/-- A 200 response whose JSON object carries a `text`. -/
def okText (t : String) : HttpOutcome :=
  .ok 200 (.obj ("text-body") { text := some t })

/-- A 200 poll response with status `pending`. -/
def pendingResp : HttpOutcome :=
  .ok 200 (.obj ("pending-body") { status := some ("pending") })

/-- A 200 poll response with status `completed`. -/
def completedResp : HttpOutcome :=
  .ok 200 (.obj ("completed-body") { status := some ("completed") })

/-- A 200 poll response with status `error` and the given `error_message`. -/
def errorResp (m : String) : HttpOutcome :=
  .ok 200 (.obj ("error-body") { status := some ("error"), error_message := some m })

/-- Transport of the success scenario: upload yields `f1`, start yields
`t1`, the first poll is `pending`, the second `completed`, and the fetch
yields `hello`. -/
def trSuccess : Transport where
  upload := okId ("f1")
  start := okId ("t1")
  polls := fun i => if i = 0 then pendingResp else completedResp
  fetch := okText ("hello")

/-- Transport whose polls always report `pending` (timeout scenario). -/
def trTimeout : Transport where
  upload := okId ("f1")
  start := okId ("t1")
  polls := fun _ => pendingResp
  fetch := okText ("hello")

/-- Transport whose first poll reports a job error `Bad audio`. -/
def trPollError : Transport where
  upload := okId ("f1")
  start := okId ("t1")
  polls := fun _ => errorResp ("Bad audio")
  fetch := okText ("hello")

/-- Transport whose upload succeeds but whose start call is rejected with
HTTP status 500. -/
def trStartFail : Transport where
  upload := okId ("f1")
  start := .ok 500 (.obj ("boom") {})
  polls := fun _ => completedResp
  fetch := okText ("hello")

/-- Transport whose upload call is rejected with HTTP status 500. -/
def trUploadFail : Transport where
  upload := .ok 500 (.obj ("server oops") {})
  start := okId ("t1")
  polls := fun _ => completedResp
  fetch := okText ("hello")

/-- Transport whose upload response is a 200 without an `id` field. -/
def trNoFileId : Transport where
  upload := .ok 200 (.obj ("empty") {})
  start := okId ("t1")
  polls := fun _ => completedResp
  fetch := okText ("hello")

/-- Transport whose start response is a 200 without an `id` field. -/
def trNoJobId : Transport where
  upload := okId ("f1")
  start := .ok 200 (.obj ("empty") {})
  polls := fun _ => completedResp
  fetch := okText ("hello")

/-- Transport whose fetch response is a 200 with an empty `text`. -/
def trEmptyText : Transport where
  upload := okId ("f1")
  start := okId ("t1")
  polls := fun _ => completedResp
  fetch := .ok 200 (.obj ("empty-text") { text := some ("") })

/-- Transport whose poll reports status `error` with `error_message` equal
to the literal `completed`. -/
def trErrCompleted : Transport where
  upload := okId ("f1")
  start := okId ("t1")
  polls := fun _ => errorResp ("completed")
  fetch := okText ("hi")

/-- If `p` is an initial segment of `c` it is one of `c ++ x`. -/
theorem strHasPre_append_left (p c x : String) (h : strHasPre p c = true) :
    strHasPre p (c ++ x) = true := by
  unfold strHasPre at *
  have h' := of_decide_eq_true h
  have hle : p.data.length ≤ c.data.length := by
    calc p.data.length = (List.take p.data.length c.data).length := by rw [h']
      _ ≤ c.data.length := by rw [List.length_take]; exact min_le_right _ _
  rw [String.data_append, List.take_append_eq_append_take,
    Nat.sub_eq_zero_of_le hle, List.take_zero, List.append_nil]
  exact decide_eq_true h'

/-- If neither of `p` and `c` is an initial segment of the other then `p`
is not an initial segment of `c ++ x`, whatever `x` is. -/
theorem strHasPre_append_false (p c x : String) (h1 : strHasPre p c = false)
    (h2 : strHasPre c p = false) : strHasPre p (c ++ x) = false := by
  unfold strHasPre at *
  rw [decide_eq_false_iff_not] at h1 h2 ⊢
  rw [String.data_append, List.take_append_eq_append_take]
  intro hcontra
  by_cases hle : p.data.length ≤ c.data.length
  · rw [Nat.sub_eq_zero_of_le hle, List.take_zero, List.append_nil] at hcontra
    exact h1 hcontra
  · push_neg at hle
    rw [List.take_of_length_le (le_of_lt hle)] at hcontra
    apply h2
    rw [← hcontra, List.take_append_eq_append_take, Nat.sub_self, List.take_zero,
      List.append_nil, List.take_length]

/-- Python truncation `s[:n]` yields at most `n` characters. -/
theorem pyTake_length_le (n : Nat) (s : String) : (pyTake n s).length ≤ n := by
  have h : (pyTake n s).length = (s.data.take n).length := rfl
  rw [h, List.length_take]
  exact min_le_left _ _

/-- The polling loop issues at most `fuel` requests. -/
theorem pollAux_requests_le (polls : Nat → HttpOutcome) (i fuel : Nat) :
    (pollAux polls i fuel).requests ≤ fuel := by
  induction fuel generalizing i with
  | zero => exact Nat.le_refl _
  | succ n ih =>
      unfold pollAux
      cases h : pollStep (polls i) with
      | some r => simp
      | none => simpa using Nat.succ_le_succ (ih (i + 1))

/-- Every sleep the polling loop performs lasts `POLL_RETRY_DELAY_S`. -/
theorem pollAux_sleeps_fixed (polls : Nat → HttpOutcome) (i fuel : Nat) :
    ∀ d ∈ (pollAux polls i fuel).sleeps, d = POLL_RETRY_DELAY_S := by
  induction fuel generalizing i with
  | zero => intro d hd; simp [pollAux] at hd
  | succ n ih =>
      intro d hd
      unfold pollAux at hd
      cases h : pollStep (polls i) with
      | some r => rw [h] at hd; simp at hd
      | none =>
          rw [h] at hd
          simp only [List.mem_cons] at hd
          rcases hd with hd | hd
          · exact hd
          · exact ih (i + 1) d hd

/-- If attempts `i, …, i+k-1` are non-terminal and attempt `i+k` is
terminal with value `r`, the loop with more than `k` units of fuel stops at
attempt `i+k` having issued `k+1` requests and slept `k` times. -/
theorem pollAux_first_terminal (polls : Nat → HttpOutcome) (r : String)
    (k : Nat) : ∀ i fuel, k < fuel →
    (∀ j, j < k → pollStep (polls (i + j)) = none) →
    pollStep (polls (i + k)) = some r →
    pollAux polls i fuel = ⟨r, k + 1, List.replicate k POLL_RETRY_DELAY_S⟩ := by
  induction k with
  | zero =>
      intro i fuel hfuel _ hterm
      cases fuel with
      | zero => exact absurd hfuel (by omega)
      | succ m =>
          rw [Nat.add_zero] at hterm
          unfold pollAux
          rw [hterm]
          rfl
  | succ k ih =>
      intro i fuel hfuel hnone hterm
      cases fuel with
      | zero => exact absurd hfuel (by omega)
      | succ m =>
          have h0 : pollStep (polls i) = none := by
            have := hnone 0 (by omega)
            rwa [Nat.add_zero] at this
          unfold pollAux
          rw [h0]
          have hrec : pollAux polls (i + 1) m =
              ⟨r, k + 1, List.replicate k POLL_RETRY_DELAY_S⟩ := by
            refine ih (i + 1) m (by omega) ?_ ?_
            · intro j hj
              have := hnone (j + 1) (by omega)
              rwa [show i + (j + 1) = i + 1 + j by omega] at this
            · rwa [show i + (k + 1) = i + 1 + k by omega] at hterm
          rw [hrec]
          simp [List.replicate_succ]

/-- If every attempt the fuel allows is non-terminal, the loop exhausts its
fuel, issues `fuel` requests, sleeps `fuel` times and times out. -/
theorem pollAux_all_none (polls : Nat → HttpOutcome) :
    ∀ i fuel, (∀ j, j < fuel → pollStep (polls (i + j)) = none) →
    pollAux polls i fuel =
      ⟨"Transcription timed out", fuel, List.replicate fuel POLL_RETRY_DELAY_S⟩ := by
  intro i fuel
  induction fuel generalizing i with
  | zero => intro _; rfl
  | succ m ih =>
      intro hnone
      have h0 : pollStep (polls i) = none := by
        have := hnone 0 (by omega)
        rwa [Nat.add_zero] at this
      unfold pollAux
      rw [h0]
      have hrec := ih (i + 1) (fun j hj => by
        have := hnone (j + 1) (by omega)
        rwa [show i + (j + 1) = i + 1 + j by omega] at this)
      rw [hrec]
      simp [List.replicate_succ]

/-- A successful upload step yields a truthy (non-empty) file id. -/
theorem uploadStep_ok_truthy (o : HttpOutcome) (fid : String)
    (h : uploadStep o = .ok fid) : truthy (some fid) = true := by
  unfold uploadStep at h
  split at h
  · simp at h
  · split at h
    · split at h <;> simp at h
    · split at h
      · simp at h
      · simp at h
      · split at h
        · rename_i fields htr
          cases hid : fields.id with
          | none => rw [hid] at htr; simp [truthy] at htr
          | some sId =>
              rw [hid] at htr h
              simp only [Option.getD_some, Except.ok.injEq] at h
              subst h
              exact htr
        · simp at h

/-- A successful start step yields a truthy (non-empty) transcription id. -/
theorem startStep_ok_truthy (o : HttpOutcome) (tid : String)
    (h : startStep o = .ok tid) : truthy (some tid) = true := by
  unfold startStep at h
  split at h
  · simp at h
  · split at h
    · split at h <;> simp at h
    · split at h
      · simp at h
      · simp at h
      · split at h
        · rename_i fields htr
          cases hid : fields.id with
          | none => rw [hid] at htr; simp [truthy] at htr
          | some sId =>
              rw [hid] at htr h
              simp only [Option.getD_some, Except.ok.injEq] at h
              subst h
              exact htr
        · simp at h

/-- A pending response is non-terminal for the poll loop. -/
theorem pollStep_none_of_pending (o : HttpOutcome)
    (h : respondsPending o = true) : pollStep o = none := by
  cases o with
  | exn mr m => simp [respondsPending] at h
  | ok s b =>
      cases b with
      | badUtf8 m => simp [respondsPending] at h
      | badJson t m => simp [respondsPending] at h
      | obj t f =>
          simp only [respondsPending, Bool.and_eq_true, decide_eq_true_eq,
            beq_iff_eq] at h
          obtain ⟨hs, hst⟩ := h
          simp [pollStep, Nat.not_le.mpr hs, hst]

/-- Every failure string of the upload step is a workflow string. -/
theorem uploadStep_error_wf (o : HttpOutcome) (m : String)
    (h : uploadStep o = .error m) : isWorkflowResult m = true := by
  have pre1 : ∀ x, strHasPre ("File upload failed") ("File upload failed: " ++ x) = true :=
    fun x => strHasPre_append_left _ _ _ (by decide)
  have pre2 : ∀ x, strHasPre ("File upload failed")
      ("File upload failed with status " ++ x) = true :=
    fun x => strHasPre_append_left _ _ _ (by decide)
  unfold uploadStep at h
  split at h
  · simp only [Except.error.injEq] at h
    subst h
    simp [isWorkflowResult, pre1]
  · split at h
    · split at h <;>
        · simp only [Except.error.injEq] at h
          subst h
          simp [isWorkflowResult, String.append_assoc, pre1, pre2]
    · split at h
      · simp only [Except.error.injEq] at h
        subst h
        simp [isWorkflowResult, pre1]
      · simp only [Except.error.injEq] at h
        subst h
        simp [isWorkflowResult, pre1]
      · split at h
        · simp at h
        · simp only [Except.error.injEq] at h
          subst h
          decide

/-- No failure string of the upload step carries the success marker. -/
theorem uploadStep_error_not_tx (o : HttpOutcome) (m : String)
    (h : uploadStep o = .error m) : strHasPre ("Transcription: ") m = false := by
  have pre1 : ∀ x, strHasPre ("Transcription: ") ("File upload failed: " ++ x) = false :=
    fun x => strHasPre_append_false _ _ _ (by decide) (by decide)
  have pre2 : ∀ x, strHasPre ("Transcription: ")
      ("File upload failed with status " ++ x) = false :=
    fun x => strHasPre_append_false _ _ _ (by decide) (by decide)
  unfold uploadStep at h
  split at h
  · simp only [Except.error.injEq] at h
    subst h
    simp [pre1]
  · split at h
    · split at h <;>
        · simp only [Except.error.injEq] at h
          subst h
          simp [String.append_assoc, pre1, pre2]
    · split at h
      · simp only [Except.error.injEq] at h
        subst h
        simp [pre1]
      · simp only [Except.error.injEq] at h
        subst h
        simp [pre1]
      · split at h
        · simp at h
        · simp only [Except.error.injEq] at h
          subst h
          decide

/-- Every failure string of the start step is a workflow string. -/
theorem startStep_error_wf (o : HttpOutcome) (m : String)
    (h : startStep o = .error m) : isWorkflowResult m = true := by
  have pre1 : ∀ x, strHasPre ("Transcription start failed")
      ("Transcription start failed: " ++ x) = true :=
    fun x => strHasPre_append_left _ _ _ (by decide)
  have pre2 : ∀ x, strHasPre ("Transcription start failed")
      ("Transcription start failed with status " ++ x) = true :=
    fun x => strHasPre_append_left _ _ _ (by decide)
  unfold startStep at h
  split at h
  · simp only [Except.error.injEq] at h
    subst h
    simp [isWorkflowResult, pre1]
  · split at h
    · split at h <;>
        · simp only [Except.error.injEq] at h
          subst h
          simp [isWorkflowResult, String.append_assoc, pre1, pre2]
    · split at h
      · simp only [Except.error.injEq] at h
        subst h
        simp [isWorkflowResult, pre1]
      · simp only [Except.error.injEq] at h
        subst h
        simp [isWorkflowResult, pre1]
      · split at h
        · simp at h
        · simp only [Except.error.injEq] at h
          subst h
          decide

/-- No failure string of the start step carries the success marker. -/
theorem startStep_error_not_tx (o : HttpOutcome) (m : String)
    (h : startStep o = .error m) : strHasPre ("Transcription: ") m = false := by
  have pre1 : ∀ x, strHasPre ("Transcription: ")
      ("Transcription start failed: " ++ x) = false :=
    fun x => strHasPre_append_false _ _ _ (by decide) (by decide)
  have pre2 : ∀ x, strHasPre ("Transcription: ")
      ("Transcription start failed with status " ++ x) = false :=
    fun x => strHasPre_append_false _ _ _ (by decide) (by decide)
  unfold startStep at h
  split at h
  · simp only [Except.error.injEq] at h
    subst h
    simp [pre1]
  · split at h
    · split at h <;>
        · simp only [Except.error.injEq] at h
          subst h
          simp [String.append_assoc, pre1, pre2]
    · split at h
      · simp only [Except.error.injEq] at h
        subst h
        simp [pre1]
      · simp only [Except.error.injEq] at h
        subst h
        simp [pre1]
      · split at h
        · simp at h
        · simp only [Except.error.injEq] at h
          subst h
          decide

/-- Every string the fetch step returns is a workflow string. -/
theorem fetchStep_wf (o : HttpOutcome) : isWorkflowResult (fetchStep o) = true := by
  have pre1 : ∀ x, strHasPre ("Transcript retrieval failed")
      ("Transcript retrieval failed: " ++ x) = true :=
    fun x => strHasPre_append_left _ _ _ (by decide)
  have pre2 : ∀ x, strHasPre ("Transcript retrieval failed")
      ("Transcript retrieval failed with status " ++ x) = true :=
    fun x => strHasPre_append_left _ _ _ (by decide)
  have pre3 : ∀ x, strHasPre ("Transcription: ") ("Transcription: " ++ x) = true :=
    fun x => strHasPre_append_left _ _ _ (by decide)
  unfold fetchStep
  split
  · simp [isWorkflowResult, pre1]
  · split
    · split <;> simp [isWorkflowResult, String.append_assoc, pre1, pre2]
    · split
      · simp [isWorkflowResult, pre1]
      · simp [isWorkflowResult, pre1]
      · rename_i t f
        show isWorkflowResult (if f.text.getD ("") = "" then
            ("Transcription completed but no text was found")
          else ("Transcription: ") ++ f.text.getD ("")) = true
        by_cases ht : f.text.getD ("") = ""
        · rw [if_pos ht]; decide
        · rw [if_neg ht]; simp [isWorkflowResult, pre3]

/-- The fetch step's string carries the success marker exactly when the
fetch response yields a non-empty transcript. -/
theorem fetchStep_hasPre_tx (o : HttpOutcome) :
    strHasPre ("Transcription: ") (fetchStep o) = fetchGivesText o := by
  have pre1 : ∀ x, strHasPre ("Transcription: ")
      ("Transcript retrieval failed: " ++ x) = false :=
    fun x => strHasPre_append_false _ _ _ (by decide) (by decide)
  have pre2 : ∀ x, strHasPre ("Transcription: ")
      ("Transcript retrieval failed with status " ++ x) = false :=
    fun x => strHasPre_append_false _ _ _ (by decide) (by decide)
  have pre3 : ∀ x, strHasPre ("Transcription: ") ("Transcription: " ++ x) = true :=
    fun x => strHasPre_append_left _ _ _ (by decide)
  cases o with
  | exn mr m => simp [fetchStep, fetchGivesText, pre1]
  | ok s b =>
      by_cases hs : s ≥ 400
      · cases b with
        | badUtf8 m => simp [fetchStep, fetchGivesText, hs, pre1, Nat.not_lt.mpr hs]
        | badJson t m =>
            simp [fetchStep, fetchGivesText, hs, String.append_assoc, pre2,
              Nat.not_lt.mpr hs]
        | obj t f =>
            simp [fetchStep, fetchGivesText, hs, String.append_assoc, pre2,
              Nat.not_lt.mpr hs]
      · cases b with
        | badUtf8 m => simp [fetchStep, fetchGivesText, hs, pre1]
        | badJson t m => simp [fetchStep, fetchGivesText, hs, pre1]
        | obj t f =>
            by_cases ht : f.text.getD ("") = ""
            · simp [fetchStep, fetchGivesText, hs, ht, Nat.lt_of_not_le hs]
              decide
            · simp [fetchStep, fetchGivesText, hs, ht, Nat.lt_of_not_le hs, pre3]

/-- The fetch step never returns a poll-failure string. -/
theorem fetchStep_not_pollfail (o : HttpOutcome) :
    strHasPre ("Transcription failed: ") (fetchStep o) = false := by
  have pre1 : ∀ x, strHasPre ("Transcription failed: ")
      ("Transcript retrieval failed: " ++ x) = false :=
    fun x => strHasPre_append_false _ _ _ (by decide) (by decide)
  have pre2 : ∀ x, strHasPre ("Transcription failed: ")
      ("Transcript retrieval failed with status " ++ x) = false :=
    fun x => strHasPre_append_false _ _ _ (by decide) (by decide)
  have pre3 : ∀ x, strHasPre ("Transcription failed: ")
      ("Transcription: " ++ x) = false :=
    fun x => strHasPre_append_false _ _ _ (by decide) (by decide)
  unfold fetchStep
  split
  · simp [pre1]
  · split
    · split <;> simp [String.append_assoc, pre1, pre2]
    · split
      · simp [pre1]
      · simp [pre1]
      · rename_i t f
        show strHasPre ("Transcription failed: ") (if f.text.getD ("") = "" then
            ("Transcription completed but no text was found")
          else ("Transcription: ") ++ f.text.getD ("")) = false
        by_cases ht : f.text.getD ("") = ""
        · rw [if_pos ht]; decide
        · rw [if_neg ht]; simp [pre3]

/-- Poll-failure strings never carry the success marker. -/
theorem pollfail_not_tx (x : String) :
    strHasPre ("Transcription: ") ("Transcription failed: " ++ x) = false :=
  strHasPre_append_false _ _ _ (by decide) (by decide)

/-- Shape of a run that aborts at the upload step. -/
theorem transcribe_upload_error (fc : List Nat) (ft : String) (tr : Transport)
    (m : String) (h : uploadStep tr.upload = .error m) :
    transcribe fc ft tr = (m, [Call.uploadReq]) := by
  unfold transcribe transcribeBody
  rw [h]
  rfl

/-- Shape of a run that obtains a file id and aborts at the start step. -/
theorem transcribe_start_error (fc : List Nat) (ft : String) (tr : Transport)
    (fid m : String) (h1 : uploadStep tr.upload = .ok fid)
    (h2 : startStep tr.start = .error m) :
    transcribe fc ft tr =
      (m, [Call.uploadReq, Call.startReq, Call.deleteFileReq fid]) := by
  have htr := uploadStep_ok_truthy tr.upload fid h1
  unfold transcribe transcribeBody cleanupCalls
  rw [h1, h2]
  simp [truthy] at htr
  simp [truthy, htr]

/-- Shape of a run that obtains both ids and aborts because polling did not
report completion. -/
theorem transcribe_poll_fail (fc : List Nat) (ft : String) (tr : Transport)
    (fid tid : String) (h1 : uploadStep tr.upload = .ok fid)
    (h2 : startStep tr.start = .ok tid)
    (h3 : (pollAux tr.polls 0 MAX_POLL_RETRIES).result ≠ "completed") :
    transcribe fc ft tr =
      ("Transcription failed: " ++ (pollAux tr.polls 0 MAX_POLL_RETRIES).result,
        [Call.uploadReq, Call.startReq]
          ++ List.replicate (pollAux tr.polls 0 MAX_POLL_RETRIES).requests Call.pollReq
          ++ [Call.deleteJobReq tid, Call.deleteFileReq fid]) := by
  have htrf := uploadStep_ok_truthy tr.upload fid h1
  have htrt := startStep_ok_truthy tr.start tid h2
  unfold transcribe transcribeBody cleanupCalls poll_until_complete
  rw [h1, h2]
  simp [truthy] at htrf htrt
  simp [truthy, htrf, htrt, h3]

/-- Shape of a run that obtains both ids and reaches the fetch step. -/
theorem transcribe_fetch (fc : List Nat) (ft : String) (tr : Transport)
    (fid tid : String) (h1 : uploadStep tr.upload = .ok fid)
    (h2 : startStep tr.start = .ok tid)
    (h3 : (pollAux tr.polls 0 MAX_POLL_RETRIES).result = "completed") :
    transcribe fc ft tr =
      (fetchStep tr.fetch,
        [Call.uploadReq, Call.startReq]
          ++ List.replicate (pollAux tr.polls 0 MAX_POLL_RETRIES).requests Call.pollReq
          ++ [Call.fetchReq, Call.deleteJobReq tid, Call.deleteFileReq fid]) := by
  have htrf := uploadStep_ok_truthy tr.upload fid h1
  have htrt := startStep_ok_truthy tr.start tid h2
  unfold transcribe transcribeBody cleanupCalls poll_until_complete
  rw [h1, h2]
  simp [truthy] at htrf htrt
  simp [truthy, htrf, htrt, h3]

/-- Counting with a predicate that rejects `a` ignores `replicate n a`. -/
theorem countP_replicate_zero {α : Type} (p : α → Bool) (a : α) (h : p a = false)
    (n : Nat) : List.countP p (List.replicate n a) = 0 := by
  induction n with
  | zero => rfl
  | succ m ih => simp [List.replicate_succ, List.countP_cons, ih, h]

/-- C1: on every exit path of `transcribe`, exactly one delete-file call is
issued when a file id was obtained (and none otherwise), exactly one
delete-job call is issued when a transcription id was obtained (and none
otherwise), and the outcome of the two delete calls — including either of
them raising — never changes the returned result (the deletions are issued
unconditionally and independently). -/
theorem claim_C1 (fc : List Nat) (ft : String) (tr : Transport) (b1 b2 : Bool) :
    countDeleteFile (transcribe fc ft tr).2 =
      (if exceptOk (uploadStep tr.upload) then 1 else 0) ∧
    countDeleteJob (transcribe fc ft tr).2 =
      (if exceptOk (uploadStep tr.upload) && exceptOk (startStep tr.start)
       then 1 else 0) ∧
    transcribe fc ft { tr with deleteJobRaises := b1, deleteFileRaises := b2 } =
      transcribe fc ft tr := by
  refine ⟨?_, ?_, rfl⟩ <;>
  · cases h1 : uploadStep tr.upload with
    | error m =>
        rw [transcribe_upload_error fc ft tr m h1]
        simp [countDeleteFile, countDeleteJob, exceptOk, isDeleteFile, isDeleteJob]
    | ok fid =>
        cases h2 : startStep tr.start with
        | error m =>
            rw [transcribe_start_error fc ft tr fid m h1 h2]
            simp [countDeleteFile, countDeleteJob, exceptOk, isDeleteFile,
              isDeleteJob, List.countP_cons]
        | ok tid =>
            by_cases h3 : (pollAux tr.polls 0 MAX_POLL_RETRIES).result = "completed"
            · rw [transcribe_fetch fc ft tr fid tid h1 h2 h3]
              simp [countDeleteFile, countDeleteJob, exceptOk, isDeleteFile,
                isDeleteJob, List.countP_append, List.countP_cons,
                countP_replicate_zero isDeleteFile Call.pollReq rfl,
                countP_replicate_zero isDeleteJob Call.pollReq rfl]
            · rw [transcribe_poll_fail fc ft tr fid tid h1 h2 h3]
              simp [countDeleteFile, countDeleteJob, exceptOk, isDeleteFile,
                isDeleteJob, List.countP_append, List.countP_cons,
                countP_replicate_zero isDeleteFile Call.pollReq rfl,
                countP_replicate_zero isDeleteJob Call.pollReq rfl]

/-- C2: whatever the transport does at any call site — any status code, any
body (undecodable, malformed JSON, missing fields) or a raised exception —
`transcribe` returns one of the user-facing workflow strings; no exception
propagates to the caller. -/
theorem claim_C2 (fc : List Nat) (ft : String) (tr : Transport) :
    isWorkflowResult (transcribe fc ft tr).1 = true := by
  cases h1 : uploadStep tr.upload with
  | error m =>
      rw [transcribe_upload_error fc ft tr m h1]
      exact uploadStep_error_wf tr.upload m h1
  | ok fid =>
      cases h2 : startStep tr.start with
      | error m =>
          rw [transcribe_start_error fc ft tr fid m h1 h2]
          exact startStep_error_wf tr.start m h2
      | ok tid =>
          by_cases h3 : (pollAux tr.polls 0 MAX_POLL_RETRIES).result = "completed"
          · rw [transcribe_fetch fc ft tr fid tid h1 h2 h3]
            exact fetchStep_wf tr.fetch
          · rw [transcribe_poll_fail fc ft tr fid tid h1 h2 h3]
            have pre : ∀ x, strHasPre ("Transcription failed: ")
                ("Transcription failed: " ++ x) = true :=
              fun x => strHasPre_append_left _ _ _ (by decide)
            simp [isWorkflowResult, pre]

/-- C4: in the scenario where upload yields `f1`, start yields `t1`, the
first poll is pending, the second completed, and the fetch yields `hello`,
the result is exactly `Transcription: hello` and exactly two delete calls
are issued, one for job `t1` and one for file `f1`. -/
theorem claim_C4 :
    transcribe [] "audio/ogg" trSuccess =
      ("Transcription: hello",
        [Call.uploadReq, Call.startReq, Call.pollReq, Call.pollReq, Call.fetchReq,
          Call.deleteJobReq ("t1"), Call.deleteFileReq ("f1")]) ∧
    countDeleteJob (transcribe [] "audio/ogg" trSuccess).2 = 1 ∧
    countDeleteFile (transcribe [] "audio/ogg" trSuccess).2 = 1 := by
  refine ⟨?_, ?_, ?_⟩ <;> rfl

/-- C3: if the first poll response is terminal the poller issues exactly one
status request; in general, when attempt `k` (0-based) is the first
terminal one, the poller issues exactly `min (k+1) 24` requests (returning
the terminal value when it is within budget); and when no attempt within
the 24-attempt budget is terminal the result is the timed-out one with
exactly 24 requests issued. -/
theorem claim_C3 (tid : String) (polls : Nat → HttpOutcome) :
    (∀ r, pollStep (polls 0) = some r →
      (poll_until_complete tid polls).requests = 1 ∧
      (poll_until_complete tid polls).result = r) ∧
    (∀ k r, (∀ j, j < k → pollStep (polls j) = none) → pollStep (polls k) = some r →
      (poll_until_complete tid polls).requests = min (k + 1) MAX_POLL_RETRIES ∧
      (k < MAX_POLL_RETRIES → (poll_until_complete tid polls).result = r)) ∧
    ((∀ j, j < MAX_POLL_RETRIES → pollStep (polls j) = none) →
      (poll_until_complete tid polls).result = "Transcription timed out" ∧
      (poll_until_complete tid polls).requests = MAX_POLL_RETRIES) := by
  have hfirst : ∀ k r, (∀ j, j < k → pollStep (polls j) = none) →
      pollStep (polls k) = some r → k < MAX_POLL_RETRIES →
      poll_until_complete tid polls =
        ⟨r, k + 1, List.replicate k POLL_RETRY_DELAY_S⟩ := by
    intro k r hn ht hk
    unfold poll_until_complete
    refine pollAux_first_terminal polls r k 0 MAX_POLL_RETRIES hk ?_ ?_
    · intro j hj; rw [Nat.zero_add]; exact hn j hj
    · rw [Nat.zero_add]; exact ht
  refine ⟨?_, ?_, ?_⟩
  · intro r h0
    have h := hfirst 0 r (by intro j hj; omega) h0 (by decide)
    rw [h]
    exact ⟨rfl, rfl⟩
  · intro k r hn ht
    by_cases hk : k < MAX_POLL_RETRIES
    · have h := hfirst k r hn ht hk
      rw [h]
      refine ⟨?_, fun _ => rfl⟩
      show k + 1 = min (k + 1) MAX_POLL_RETRIES
      simp only [MAX_POLL_RETRIES] at hk ⊢
      omega
    · push_neg at hk
      have hall : ∀ j, j < MAX_POLL_RETRIES → pollStep (polls j) = none :=
        fun j hj => hn j (lt_of_lt_of_le hj hk)
      have h := pollAux_all_none polls 0 MAX_POLL_RETRIES
        (fun j hj => by rw [Nat.zero_add]; exact hall j hj)
      unfold poll_until_complete
      rw [h]
      refine ⟨?_, fun hklt => absurd hklt (by omega)⟩
      show MAX_POLL_RETRIES = min (k + 1) MAX_POLL_RETRIES
      simp only [MAX_POLL_RETRIES] at hk ⊢
      omega
  · intro hall
    have h := pollAux_all_none polls 0 MAX_POLL_RETRIES
      (fun j hj => by rw [Nat.zero_add]; exact hall j hj)
    unfold poll_until_complete
    rw [h]
    exact ⟨rfl, rfl⟩

/-- C3 witness: with every poll pending, the poller times out after exactly
24 requests. -/
theorem claim_C3_witness :
    (poll_until_complete ("t1") trTimeout.polls).result = "Transcription timed out" ∧
    (poll_until_complete ("t1") trTimeout.polls).requests = MAX_POLL_RETRIES :=
  (claim_C3 ("t1") trTimeout.polls).2.2 (fun _ _ => rfl)

/-- C5: the poller always issues at most 24 status requests, every sleep it
performs lasts exactly the fixed 0.5 time units, and when upload and start
succeed but all 24 polls report `pending`, `transcribe` returns
`Transcription failed: Transcription timed out` and cleans up both
handles. -/
theorem claim_C5 (fc : List Nat) (ft tid : String) (tr : Transport) :
    (poll_until_complete tid tr.polls).requests ≤ MAX_POLL_RETRIES ∧
    (∀ d ∈ (poll_until_complete tid tr.polls).sleeps, d = POLL_RETRY_DELAY_S) ∧
    (∀ fid tid2, uploadStep tr.upload = .ok fid → startStep tr.start = .ok tid2 →
      (∀ j, j < MAX_POLL_RETRIES → respondsPending (tr.polls j) = true) →
      (transcribe fc ft tr).1 = "Transcription failed: Transcription timed out" ∧
      countDeleteJob (transcribe fc ft tr).2 = 1 ∧
      countDeleteFile (transcribe fc ft tr).2 = 1) := by
  refine ⟨pollAux_requests_le tr.polls 0 MAX_POLL_RETRIES,
    pollAux_sleeps_fixed tr.polls 0 MAX_POLL_RETRIES, ?_⟩
  intro fid tid2 h1 h2 hp
  have hall : ∀ j, j < MAX_POLL_RETRIES → pollStep (tr.polls j) = none :=
    fun j hj => pollStep_none_of_pending _ (hp j hj)
  have hto := pollAux_all_none tr.polls 0 MAX_POLL_RETRIES
    (fun j hj => by rw [Nat.zero_add]; exact hall j hj)
  have hres : (pollAux tr.polls 0 MAX_POLL_RETRIES).result =
      "Transcription timed out" := by rw [hto]
  have hne : (pollAux tr.polls 0 MAX_POLL_RETRIES).result ≠ "completed" := by
    rw [hres]; decide
  rw [transcribe_poll_fail fc ft tr fid tid2 h1 h2 hne]
  refine ⟨by rw [hres]; rfl, ?_, ?_⟩ <;>
    simp [countDeleteJob, countDeleteFile, isDeleteJob, isDeleteFile,
      List.countP_append, List.countP_cons,
      countP_replicate_zero isDeleteFile Call.pollReq rfl,
      countP_replicate_zero isDeleteJob Call.pollReq rfl]

/-- C5 witness: the all-pending transport with successful upload and start
indeed times out and cleans up both handles. -/
theorem claim_C5_witness :
    (transcribe [] "audio/ogg" trTimeout).1 =
      "Transcription failed: Transcription timed out" ∧
    countDeleteJob (transcribe [] "audio/ogg" trTimeout).2 = 1 ∧
    countDeleteFile (transcribe [] "audio/ogg" trTimeout).2 = 1 :=
  (claim_C5 [] "audio/ogg" "t1" trTimeout).2.2 ("f1") "t1" rfl rfl (fun _ _ => rfl)

/-- A rejected (status ≥ 400) upload with a decodable body yields the
status-carrying failure string. -/
theorem uploadStep_reject (s : Nat) (b : BodyOutcome) (t : String)
    (hs : 400 ≤ s) (ht : decodedText b = some t) :
    uploadStep (.ok s b) = .error ("File upload failed with status "
      ++ toString s ++ ": " ++ pyTake MAX_ERROR_LEN t) := by
  cases b with
  | badUtf8 m => simp [decodedText] at ht
  | badJson t2 m =>
      simp [decodedText] at ht
      subst ht
      simp [uploadStep, hs]
  | obj t2 f =>
      simp [decodedText] at ht
      subst ht
      simp [uploadStep, hs]

/-- A rejected (status ≥ 400) start call with a decodable body yields the
status-carrying failure string. -/
theorem startStep_reject (s : Nat) (b : BodyOutcome) (t : String)
    (hs : 400 ≤ s) (ht : decodedText b = some t) :
    startStep (.ok s b) = .error ("Transcription start failed with status "
      ++ toString s ++ ": " ++ pyTake MAX_ERROR_LEN t) := by
  cases b with
  | badUtf8 m => simp [decodedText] at ht
  | badJson t2 m =>
      simp [decodedText] at ht
      subst ht
      simp [startStep, hs]
  | obj t2 f =>
      simp [decodedText] at ht
      subst ht
      simp [startStep, hs]

/-- A rejected (status ≥ 400) fetch with a decodable body yields the
status-carrying failure string. -/
theorem fetchStep_reject (s : Nat) (b : BodyOutcome) (t : String)
    (hs : 400 ≤ s) (ht : decodedText b = some t) :
    fetchStep (.ok s b) = "Transcript retrieval failed with status "
      ++ toString s ++ ": " ++ pyTake MAX_ERROR_LEN t := by
  cases b with
  | badUtf8 m => simp [decodedText] at ht
  | badJson t2 m =>
      simp [decodedText] at ht
      subst ht
      simp [fetchStep, hs]
  | obj t2 f =>
      simp [decodedText] at ht
      subst ht
      simp [fetchStep, hs]

/-- C6: at each of the three one-shot steps, an HTTP status ≥ 400 with a
decodable body aborts the run with a failure string built from the status
code and the body truncated to at most 100 characters; in the upload case
(e.g. status 500) the result starts with `File upload failed` and no delete
call is issued. -/
theorem claim_C6 (fc : List Nat) (ft : String) (tr : Transport) (s : Nat)
    (b : BodyOutcome) (t : String) (hs : 400 ≤ s)
    (ht : decodedText b = some t) :
    (tr.upload = .ok s b →
      (transcribe fc ft tr).1 = "File upload failed with status "
        ++ toString s ++ ": " ++ pyTake MAX_ERROR_LEN t ∧
      (pyTake MAX_ERROR_LEN t).length ≤ MAX_ERROR_LEN ∧
      countDeleteFile (transcribe fc ft tr).2 = 0 ∧
      countDeleteJob (transcribe fc ft tr).2 = 0) ∧
    (∀ fid, uploadStep tr.upload = .ok fid → tr.start = .ok s b →
      (transcribe fc ft tr).1 = "Transcription start failed with status "
        ++ toString s ++ ": " ++ pyTake MAX_ERROR_LEN t ∧
      (pyTake MAX_ERROR_LEN t).length ≤ MAX_ERROR_LEN) ∧
    (∀ fid tid, uploadStep tr.upload = .ok fid → startStep tr.start = .ok tid →
      (pollAux tr.polls 0 MAX_POLL_RETRIES).result = "completed" →
      tr.fetch = .ok s b →
      (transcribe fc ft tr).1 = "Transcript retrieval failed with status "
        ++ toString s ++ ": " ++ pyTake MAX_ERROR_LEN t ∧
      (pyTake MAX_ERROR_LEN t).length ≤ MAX_ERROR_LEN) ∧
    (s = 500 → tr.upload = .ok s b →
      strHasPre ("File upload failed") (transcribe fc ft tr).1 = true ∧
      countDeleteFile (transcribe fc ft tr).2 = 0 ∧
      countDeleteJob (transcribe fc ft tr).2 = 0) := by
  refine ⟨?_, ?_, ?_, ?_⟩
  · intro hup
    have he : uploadStep tr.upload = .error ("File upload failed with status "
        ++ toString s ++ ": " ++ pyTake MAX_ERROR_LEN t) := by
      rw [hup]; exact uploadStep_reject s b t hs ht
    rw [transcribe_upload_error fc ft tr _ he]
    exact ⟨rfl, pyTake_length_le _ _, rfl, rfl⟩
  · intro fid h1 hst
    have he : startStep tr.start = .error ("Transcription start failed with status "
        ++ toString s ++ ": " ++ pyTake MAX_ERROR_LEN t) := by
      rw [hst]; exact startStep_reject s b t hs ht
    rw [transcribe_start_error fc ft tr fid _ h1 he]
    exact ⟨rfl, pyTake_length_le _ _⟩
  · intro fid tid h1 h2 h3 hf
    rw [transcribe_fetch fc ft tr fid tid h1 h2 h3]
    refine ⟨?_, pyTake_length_le _ _⟩
    show fetchStep tr.fetch = _
    rw [hf]
    exact fetchStep_reject s b t hs ht
  · intro _ hup
    have he : uploadStep tr.upload = .error ("File upload failed with status "
        ++ toString s ++ ": " ++ pyTake MAX_ERROR_LEN t) := by
      rw [hup]; exact uploadStep_reject s b t hs ht
    rw [transcribe_upload_error fc ft tr _ he]
    refine ⟨?_, rfl, rfl⟩
    show strHasPre ("File upload failed") ("File upload failed with status "
      ++ toString s ++ ": " ++ pyTake MAX_ERROR_LEN t) = true
    rw [String.append_assoc, String.append_assoc]
    exact strHasPre_append_left _ _ _ (by decide)

/-- C6 witness: a 500 upload rejection with body `server oops` yields the
status-carrying failure string, starting with `File upload failed`, and no
delete call. -/
theorem claim_C6_witness :
    (transcribe [] "audio/ogg" trUploadFail).1 =
      "File upload failed with status 500: server oops" ∧
    strHasPre ("File upload failed") (transcribe [] "audio/ogg" trUploadFail).1 = true ∧
    countDeleteFile (transcribe [] "audio/ogg" trUploadFail).2 = 0 ∧
    countDeleteJob (transcribe [] "audio/ogg" trUploadFail).2 = 0 := by
  have h := claim_C6 [] "audio/ogg" trUploadFail 500 (.obj ("server oops") {})
    "server oops" (by decide) rfl
  exact ⟨(h.1 rfl).1, (h.2.2.2 rfl rfl).1, (h.1 rfl).2.2.1, (h.1 rfl).2.2.2⟩

/-- C7 counterexample: a run that obtains the file handle and fails after
the start-job step (the poll reports a job error) nevertheless issues one
delete-job call, because a job id was obtained; so a run "failing at or
after the start-job step" need not have zero delete-job calls. -/
theorem claim_C7_counterexample :
    exceptOk (uploadStep trPollError.upload) = true ∧
    (transcribe [] "audio/ogg" trPollError).1 = "Transcription failed: Bad audio" ∧
    countDeleteJob (transcribe [] "audio/ogg" trPollError).2 = 1 := by
  exact ⟨rfl, rfl, rfl⟩

/-- C7 (amended): for all workflow runs that successfully obtain a file
handle but fail at the start-job step — so that no job id is ever obtained
— exactly one delete-file call and zero delete-job calls are issued. -/
theorem claim_C7 (fc : List Nat) (ft : String) (tr : Transport)
    (fid m : String) (h1 : uploadStep tr.upload = .ok fid)
    (h2 : startStep tr.start = .error m) :
    countDeleteFile (transcribe fc ft tr).2 = 1 ∧
    countDeleteJob (transcribe fc ft tr).2 = 0 := by
  rw [transcribe_start_error fc ft tr fid m h1 h2]
  exact ⟨rfl, rfl⟩

/-- C7 witness: upload succeeds with `f1`, the start call is rejected with
status 500, and cleanup deletes the file once and the job never. -/
theorem claim_C7_witness :
    countDeleteFile (transcribe [] "audio/ogg" trStartFail).2 = 1 ∧
    countDeleteJob (transcribe [] "audio/ogg" trStartFail).2 = 0 :=
  claim_C7 [] "audio/ogg" trStartFail ("f1")
    "Transcription start failed with status 500: boom" rfl rfl

/-- C8: a 2xx response missing an expected field aborts the run like a
remote rejection would (failure result plus cleanup of whatever handles
exist): a missing upload `id` aborts before any handle exists, a missing
start `id` aborts and deletes the file; a fetch response whose `text` is
missing or empty aborts with the distinct string `Transcription completed
but no text was found`, which is not a transport/fetch error, after both
handles were obtained (both are cleaned up). -/
theorem claim_C8 (fc : List Nat) (ft : String) (tr : Transport) :
    (∀ s t f, tr.upload = .ok s (.obj t f) → s < 400 → truthy f.id = false →
      (transcribe fc ft tr).1 = "Failed to get file_id from upload response" ∧
      countDeleteFile (transcribe fc ft tr).2 = 0 ∧
      countDeleteJob (transcribe fc ft tr).2 = 0) ∧
    (∀ fid s t f, uploadStep tr.upload = .ok fid → tr.start = .ok s (.obj t f) →
      s < 400 → truthy f.id = false →
      (transcribe fc ft tr).1 = "Failed to get transcription_id from response" ∧
      countDeleteFile (transcribe fc ft tr).2 = 1 ∧
      countDeleteJob (transcribe fc ft tr).2 = 0) ∧
    (∀ fid tid s t f, uploadStep tr.upload = .ok fid →
      startStep tr.start = .ok tid →
      (pollAux tr.polls 0 MAX_POLL_RETRIES).result = "completed" →
      tr.fetch = .ok s (.obj t f) → s < 400 → f.text.getD ("") = "" →
      (transcribe fc ft tr).1 = "Transcription completed but no text was found" ∧
      strHasPre ("Transcript retrieval failed") (transcribe fc ft tr).1 = false ∧
      countDeleteJob (transcribe fc ft tr).2 = 1 ∧
      countDeleteFile (transcribe fc ft tr).2 = 1) := by
  refine ⟨?_, ?_, ?_⟩
  · intro s t f hup hs hid
    have he : uploadStep tr.upload =
        .error ("Failed to get file_id from upload response") := by
      rw [hup]
      have hs' : ¬ s ≥ 400 := by omega
      simp [uploadStep, hs', hid]
    rw [transcribe_upload_error fc ft tr _ he]
    exact ⟨rfl, rfl, rfl⟩
  · intro fid s t f h1 hst hs hid
    have he : startStep tr.start =
        .error ("Failed to get transcription_id from response") := by
      rw [hst]
      have hs' : ¬ s ≥ 400 := by omega
      simp [startStep, hs', hid]
    rw [transcribe_start_error fc ft tr fid _ h1 he]
    exact ⟨rfl, rfl, rfl⟩
  · intro fid tid s t f h1 h2 h3 hf hs htext
    have he : fetchStep tr.fetch =
        "Transcription completed but no text was found" := by
      rw [hf]
      have hs' : ¬ s ≥ 400 := by omega
      simp [fetchStep, hs', htext]
    rw [transcribe_fetch fc ft tr fid tid h1 h2 h3]
    refine ⟨he, ?_, ?_, ?_⟩
    · show strHasPre ("Transcript retrieval failed") (fetchStep tr.fetch) = false
      rw [he]
      decide
    · simp [countDeleteJob, isDeleteJob, List.countP_append, List.countP_cons,
        countP_replicate_zero isDeleteJob Call.pollReq rfl]
    · simp [countDeleteFile, isDeleteFile, List.countP_append, List.countP_cons,
        countP_replicate_zero isDeleteFile Call.pollReq rfl]

/-- C8 witness: exercising the three conjuncts on concrete transports: a
200 upload without `id`, a 200 start without `id`, and a 200 fetch with an
empty `text`. -/
theorem claim_C8_witness :
    ((transcribe [] "audio/ogg" trNoFileId).1 =
        "Failed to get file_id from upload response" ∧
      countDeleteFile (transcribe [] "audio/ogg" trNoFileId).2 = 0) ∧
    ((transcribe [] "audio/ogg" trNoJobId).1 =
        "Failed to get transcription_id from response" ∧
      countDeleteFile (transcribe [] "audio/ogg" trNoJobId).2 = 1 ∧
      countDeleteJob (transcribe [] "audio/ogg" trNoJobId).2 = 0) ∧
    ((transcribe [] "audio/ogg" trEmptyText).1 =
        "Transcription completed but no text was found" ∧
      countDeleteJob (transcribe [] "audio/ogg" trEmptyText).2 = 1 ∧
      countDeleteFile (transcribe [] "audio/ogg" trEmptyText).2 = 1) := by
  have h1 := (claim_C8 [] "audio/ogg" trNoFileId).1 200 ("empty") {} rfl
    (by omega) rfl
  have h2 := (claim_C8 [] "audio/ogg" trNoJobId).2.1 ("f1") 200 ("empty") {} rfl rfl
    (by omega) rfl
  have h3 := (claim_C8 [] "audio/ogg" trEmptyText).2.2 ("f1") "t1" 200 ("empty-text")
    { text := some ("") } rfl rfl rfl rfl (by omega) rfl
  exact ⟨⟨h1.1, h1.2.1⟩, ⟨h2.1, h2.2.1, h2.2.2⟩, ⟨h3.1, h3.2.2.1, h3.2.2.2⟩⟩

/-- C9: when a poll response reports status `error` with `error_message`
equal to the literal string `completed`, the poller's string-encoded
outcome collides with the completed outcome: `transcribe` does not take the
`Transcription failed: …` abort branch and instead proceeds to fetch the
transcript as if the job had succeeded. -/
theorem claim_C9 (fc : List Nat) (ft : String) (tr : Transport)
    (fid tid : String) (s : Nat) (t : String) (f : Fields)
    (h1 : uploadStep tr.upload = .ok fid) (h2 : startStep tr.start = .ok tid)
    (hpoll : tr.polls 0 = .ok s (.obj t f)) (hs : s < 400)
    (hstat : f.status = some ("error")) (herr : f.error_message = some ("completed")) :
    (poll_until_complete tid tr.polls).result = "completed" ∧
    countFetch (transcribe fc ft tr).2 = 1 ∧
    (transcribe fc ft tr).1 = fetchStep tr.fetch ∧
    strHasPre ("Transcription failed: ") (transcribe fc ft tr).1 = false := by
  have hstep : pollStep (tr.polls 0) = some ("completed") := by
    rw [hpoll]
    have hs' : ¬ s ≥ 400 := by omega
    simp [pollStep, hs', hstat, herr]
  have hrun : pollAux tr.polls 0 MAX_POLL_RETRIES = ⟨"completed", 1, []⟩ := by
    have h := pollAux_first_terminal tr.polls ("completed") 0 0 MAX_POLL_RETRIES
      (by decide) (fun j hj => absurd hj (by omega))
      (by rw [Nat.add_zero]; exact hstep)
    simpa using h
  have hcompl : (pollAux tr.polls 0 MAX_POLL_RETRIES).result = "completed" := by
    rw [hrun]
  have hsh := transcribe_fetch fc ft tr fid tid h1 h2 hcompl
  rw [hrun] at hsh
  rw [hsh]
  refine ⟨by unfold poll_until_complete; rw [hrun], ?_, rfl,
    fetchStep_not_pollfail tr.fetch⟩
  rfl

/-- C9 witness: with the poll reporting status `error` and `error_message`
`completed`, the run fetches the transcript and returns it as a success. -/
theorem claim_C9_witness :
    (poll_until_complete ("t1") trErrCompleted.polls).result = "completed" ∧
    countFetch (transcribe [] "audio/ogg" trErrCompleted).2 = 1 ∧
    (transcribe [] "audio/ogg" trErrCompleted).1 = fetchStep trErrCompleted.fetch ∧
    strHasPre ("Transcription failed: ")
      (transcribe [] "audio/ogg" trErrCompleted).1 = false :=
  claim_C9 [] "audio/ogg" trErrCompleted ("f1") "t1" 200 ("error-body")
    { status := some ("error"), error_message := some ("completed") }
    rfl rfl rfl (by omega) rfl rfl

/-- C10: the returned string starts with `Transcription: ` exactly when the
run succeeded end to end with a non-empty transcript; no failure string of
any abort path carries that marker.  This is the property the CLI wrapper
`transcribe_local.py` relies on to separate transcripts from errors. -/
theorem claim_C10 (fc : List Nat) (ft : String) (tr : Transport) :
    strHasPre ("Transcription: ") (transcribe fc ft tr).1 = runSucceeded tr := by
  cases h1 : uploadStep tr.upload with
  | error m =>
      rw [transcribe_upload_error fc ft tr m h1,
        uploadStep_error_not_tx tr.upload m h1]
      simp [runSucceeded, h1, exceptOk]
  | ok fid =>
      cases h2 : startStep tr.start with
      | error m =>
          rw [transcribe_start_error fc ft tr fid m h1 h2,
            startStep_error_not_tx tr.start m h2]
          simp [runSucceeded, h1, h2, exceptOk]
      | ok tid =>
          by_cases h3 : (pollAux tr.polls 0 MAX_POLL_RETRIES).result = "completed"
          · rw [transcribe_fetch fc ft tr fid tid h1 h2 h3]
            show strHasPre ("Transcription: ") (fetchStep tr.fetch) = _
            rw [fetchStep_hasPre_tx tr.fetch]
            simp [runSucceeded, h1, h2, h3, exceptOk]
          · rw [transcribe_poll_fail fc ft tr fid tid h1 h2 h3]
            show strHasPre ("Transcription: ")
              ("Transcription failed: " ++ _) = _
            rw [pollfail_not_tx]
            simp [runSucceeded, h1, h2, exceptOk, beq_iff_eq, h3]

end STT
